import Mathlib

/-!
Verification of the uk-coronavirus-data-alerts core (src/main.py) via a
shallow embedding in Lean.

Modelling conventions:
* Calendar dates are integers (days); `pd.Timedelta(days = n)` is the
  integer `n`.
* Metric values, aggregates and thresholds are rationals.
* A pandas NaN aggregate (mean of an empty selection) is modelled as
  `none : Option ℚ`; a defined aggregate is `some q`.
* A raised Python exception is modelled with `Except RunError`.
* A percentage change is a `PCVal`: a finite rational, `inf`
  (`float("inf")` in the source), or `nan` (IEEE NaN propagated through
  the arithmetic of `get_percentage_change` when an aggregate is NaN).
-/

/- The rational-number operations are `@[irreducible]` upstream, which
blocks definitional evaluation of the embedded pipeline on concrete
inputs; restore the default reducibility so `decide` and `rfl` can
compute with them. -/
set_option allowUnsafeReducibility true in
attribute [semireducible] Rat.add

set_option allowUnsafeReducibility true in
attribute [semireducible] Rat.mul

set_option allowUnsafeReducibility true in
attribute [semireducible] Rat.sub

set_option allowUnsafeReducibility true in
attribute [semireducible] Rat.inv

/-- The two email/verification modes of `class EmailTypes(Enum)` (main.py
lines 26-28). -/
inductive EmailTypes where
  | VERIFIED
  | UNVERIFIED
deriving DecidableEq, Repr

/-- One row of the fetched metric dataframe: columns `areaName`,
`areaCode`, `date`, and the metric value column. -/
structure Row where
  areaName : String
  areaCode : String
  date : ℤ
  value : ℚ
deriving DecidableEq, Repr

/-- The aggregation functions the program passes by name:
`'sum'` and `'mean'` (main.py lines 308-309). -/
inductive AggFun where
  | sum
  | mean
deriving DecidableEq, Repr

/-- The two metric shapes of the program: `newCasesBySpecimenDate`
(a per-100000 column is appended) and the hospital metrics
(`hospitalCases`, no per-100000 column). -/
inductive MetricKind where
  | cases
  | hospital
deriving DecidableEq, Repr

/-- Python exceptions the embedded pipeline can raise.
`unboundLocalRetDf` is the `UnboundLocalError` on `ret_df` when the
area-name loop of `percentage_changes` never runs (main.py line 207
assigns `ret_df` only inside the loop, line 208 returns it).
`ambiguousAreaCode` is the `Exception` raised by `area_code_for_area`
(main.py line 214). `emptySeries` is modelled from the spec: the spec
names an `EmptySeriesError`, but no such error exists anywhere in the
source; the constructor exists only so the spec claim can be stated. -/
inductive RunError where
  | unboundLocalRetDf
  | ambiguousAreaCode
  | emptySeries
deriving DecidableEq, Repr

/-- A percentage-change value: finite, `float("inf")`, or IEEE NaN. -/
inductive PCVal where
  | nan
  | inf
  | fin (q : ℚ)
deriving DecidableEq, Repr

/-- `getattr(series, aggregation_function)()` on the list of selected
values. pandas `Series.sum()` of an EMPTY selection returns `0`;
pandas `Series.mean()` of an empty selection returns NaN (`none`). -/
def applyAgg : AggFun → List ℚ → Option ℚ
  | AggFun.sum, l => some l.sum
  | AggFun.mean, [] => none
  | AggFun.mean, l => some (l.sum / (l.length : ℚ))

/-- The branch structure of main.py lines 138-143, lifted to possibly-NaN
aggregates. With both aggregates defined it is literally the source:
`if before == 0 and last == 0: 0 / elif before == 0: inf / else forma`.
With a NaN aggregate the Python comparisons `NaN == 0` are False and the
else-branch arithmetic yields NaN, except that `before == 0` with a NaN
`last` still takes the `elif` branch and yields `inf`. -/
def pcFromAggs : Option ℚ → Option ℚ → PCVal
  | some b, some c =>
      if b = 0 ∧ c = 0 then PCVal.fin 0
      else if b = 0 then PCVal.inf
      else PCVal.fin (((c - b) / b) * 100)
  | some b, none => if b = 0 then PCVal.inf else PCVal.nan
  | none, _ => PCVal.nan

/-- The Change Evaluator contract exactly as the spec words it
(spec section 4.3): zero/zero gives 0, zero/non-zero gives +infinity,
otherwise the relative-change formula. Stated over defined aggregates. -/
def spec_percentage_change (b c : ℚ) : PCVal :=
  if b = 0 ∧ c = 0 then PCVal.fin 0
  else if b = 0 ∧ c ≠ 0 then PCVal.inf
  else PCVal.fin (((c - b) / b) * 100)

/-- C1. The Change Evaluator computes percentage change piecewise exactly
as the spec states, for every pair of defined aggregates. -/
theorem C1_change_evaluator_piecewise (b c : ℚ) :
    pcFromAggs (some b) (some c) = spec_percentage_change b c := by
  unfold pcFromAggs spec_percentage_change
  by_cases hb : b = 0
  · by_cases hc : c = 0 <;> simp [hb, hc]
  · simp [hb]

/-- `metric_df['date'].max()` (main.py line 117): the maximum of the date
column, undefined (pandas NaN) for an empty frame. -/
def maxDate : List ℤ → Option ℤ
  | [] => none
  | d :: ds => some (ds.foldl max d)

/-- The four dates returned by `dates_from_upper_bound` (main.py
lines 99-105); `pd.Timedelta(days = n)` is the integer `n`. -/
structure Dates where
  upper_bound : ℤ
  six_days_before : ℤ
  seven_days_before : ℤ
  thirteen_days_before : ℤ
deriving DecidableEq, Repr

/-- main.py lines 99-105. -/
def dates_from_upper_bound (ub : ℤ) : Dates :=
  { upper_bound := ub
    six_days_before := ub - 6
    seven_days_before := ub - 7
    thirteen_days_before := ub - 13 }

/-- main.py line 125: `upper_bound = max_report_date - pd.Timedelta(days=4)
if EMAIL_TYPE is EmailTypes.VERIFIED else max_report_date`. -/
def upperBoundFor (mode : EmailTypes) (maxReportDate : ℤ) : ℤ :=
  if mode = EmailTypes.VERIFIED then maxReportDate - 4 else maxReportDate

/-- The set of dates selected by the last-week filter (main.py
lines 130-131): `date.ge(six_days_before) & date.le(upper_bound)`. -/
def currentWindow (d : Dates) : Finset ℤ :=
  Finset.Icc d.six_days_before d.upper_bound

/-- The set of dates selected by the week-before filter (main.py
lines 132-133): `date.ge(thirteen_days_before) & date.le(seven_days_before)`. -/
def priorWindow (d : Dates) : Finset ℤ :=
  Finset.Icc d.thirteen_days_before d.seven_days_before

theorem le_foldl_max (ds : List ℤ) (d : ℤ) :
    d ≤ ds.foldl max d ∧ ∀ x ∈ ds, x ≤ ds.foldl max d := by
  induction ds generalizing d with
  | nil => simp
  | cons e ds ih =>
    obtain ⟨h1, h2⟩ := ih (max d e)
    refine ⟨le_trans (le_max_left d e) h1, ?_⟩
    intro x hx
    rcases List.mem_cons.mp hx with rfl | hx
    · exact le_trans (le_max_right d x) h1
    · exact h2 x hx

theorem foldl_max_mem (ds : List ℤ) (d : ℤ) : ds.foldl max d ∈ d :: ds := by
  induction ds generalizing d with
  | nil => simp
  | cons e ds ih =>
    have h := ih (max d e)
    rcases max_choice d e with hde | hde <;>
      simp only [List.foldl_cons] <;> rw [hde] at h ⊢ <;>
      rcases List.mem_cons.mp h with h1 | h1 <;> simp [h1]

/-- C2. For a non-empty series the upper bound is the maximum date
(UNVERIFIED) or that maximum minus 4 days (VERIFIED), and the two windows
are the inclusive intervals `[ub-6, ub]` and `[ub-13, ub-7]`, each of
exactly 7 calendar days and disjoint from one another. -/
theorem C2_window_resolver (df : List Row) (mode : EmailTypes) (h : df ≠ []) :
    ∃ M : ℤ, maxDate (df.map Row.date) = some M ∧
      (∀ r ∈ df, r.date ≤ M) ∧ (∃ r ∈ df, r.date = M) ∧
      (mode = EmailTypes.UNVERIFIED → upperBoundFor mode M = M) ∧
      (mode = EmailTypes.VERIFIED → upperBoundFor mode M = M - 4) ∧
      currentWindow (dates_from_upper_bound (upperBoundFor mode M)) =
        Finset.Icc (upperBoundFor mode M - 6) (upperBoundFor mode M) ∧
      priorWindow (dates_from_upper_bound (upperBoundFor mode M)) =
        Finset.Icc (upperBoundFor mode M - 13) (upperBoundFor mode M - 7) ∧
      (currentWindow (dates_from_upper_bound (upperBoundFor mode M))).card = 7 ∧
      (priorWindow (dates_from_upper_bound (upperBoundFor mode M))).card = 7 ∧
      Disjoint (currentWindow (dates_from_upper_bound (upperBoundFor mode M)))
        (priorWindow (dates_from_upper_bound (upperBoundFor mode M))) := by
  match df, h with
  | r :: rest, _ =>
    refine ⟨(rest.map Row.date).foldl max r.date, rfl, ?_, ?_, ?_, ?_, rfl, rfl, ?_, ?_, ?_⟩
    · intro x hx
      obtain ⟨h1, h2⟩ := le_foldl_max (rest.map Row.date) r.date
      rcases List.mem_cons.mp hx with rfl | hx
      · exact h1
      · exact h2 x.date (List.mem_map.mpr ⟨x, hx, rfl⟩)
    · have hmem := foldl_max_mem (rest.map Row.date) r.date
      rcases List.mem_cons.mp hmem with h1 | h1
      · exact ⟨r, by simp, h1.symm⟩
      · obtain ⟨x, hx, hxd⟩ := List.mem_map.mp h1
        exact ⟨x, by simp [hx], hxd⟩
    · intro hm; simp [upperBoundFor, hm]
    · intro hm; simp [upperBoundFor, hm]
    · simp only [currentWindow, dates_from_upper_bound, Int.card_Icc]
      omega
    · simp only [priorWindow, dates_from_upper_bound, Int.card_Icc]
      omega
    · rw [Finset.disjoint_left]
      intro a ha hb
      simp only [currentWindow, priorWindow, dates_from_upper_bound, Finset.mem_Icc] at ha hb
      omega

/-- Concrete instance of `C2_window_resolver`: a one-row series with
date 20 in VERIFIED mode has a 7-day current window. -/
theorem C2_window_resolver_witness :
    (currentWindow (dates_from_upper_bound (upperBoundFor EmailTypes.VERIFIED 20))).card = 7 := by
  obtain ⟨M, hM, hrest⟩ :=
    C2_window_resolver [{ areaName := "L", areaCode := "c", date := 20, value := 5 }]
      EmailTypes.VERIFIED (by simp)
  have hM20 : (20 : ℤ) = M := by simpa [maxDate] using hM
  subst hM20
  exact hrest.2.2.2.2.2.2.1

/-- Helper for `pdUnique`: keeps the values not seen before, in order. -/
def pdUniqueAux (seen : List String) : List String → List String
  | [] => []
  | a :: as => if a ∈ seen then pdUniqueAux seen as else a :: pdUniqueAux (a :: seen) as

/-- pandas `Series.unique()`: distinct values in order of first
appearance (used for `metric_df.areaName.unique()`, main.py line 156, and
`....areaCode.unique()`, main.py line 212). -/
def pdUnique (l : List String) : List String := pdUniqueAux [] l

/-- main.py lines 211-216: the unique area codes of the rows with the
given area name; raises when there is not exactly one. -/
def area_code_for_area (metric_df : List Row) (area_name : String) :
    Except RunError String :=
  match pdUnique ((metric_df.filter (fun r => r.areaName = area_name)).map Row.areaCode) with
  | [c] => Except.ok c
  | _ => Except.error RunError.ambiguousAreaCode

/-- The populations dataframe: an association list from area code to the
population value of the `All ages` column. -/
def lookupPop : List (String × ℚ) → String → Option ℚ
  | [], _ => none
  | (k, v) :: rest, code => if k = code then some v else lookupPop rest code

/-- main.py lines 82-87: `populations_df.at[area_code, "All ages"]`,
returning the population, or `None` after printing a diagnostic when the
lookup raises `KeyError`. The second component is the list of diagnostic
lines printed to stderr. -/
def population_for_area (populations : List (String × ℚ)) (area_code : String) :
    Option ℚ × List String :=
  match lookupPop populations area_code with
  | some p => (some p, [])
  | none => (none, ["Error getting population for area, area code not found."])

/-- main.py lines 90-97: resolves the area code (which can raise), looks
up the population, and computes `(cases / area_population) * 100000`.
A missing population makes the division raise `TypeError`, caught and
turned into `None`. A NaN `cases` value (modelled `none`) makes the
result NaN, which behaves identically to `None` downstream (both fail
every `gt` comparison), so both are modelled as `none`. -/
def get_cases_per_100000 (cases : Option ℚ) (populations : List (String × ℚ))
    (metric_df : List Row) (area_name : String) : Except RunError (Option ℚ) := do
  let area_code ← area_code_for_area metric_df area_name
  match (population_for_area populations area_code).1, cases with
  | none, _ => pure none
  | some _, none => pure none
  | some p, some c => pure (some ((c / p) * 100000))

/-- Floor of a rational, computed directly on the numerator and
denominator. -/
def ratFloor (q : ℚ) : ℤ := q.num.fdiv q.den

/-- Round to the nearest integer, ties to the even integer: the rounding
Python's builtin `round` applies. -/
def roundHalfEven (q : ℚ) : ℤ :=
  let f := ratFloor q
  let r := q - (f : ℚ)
  if r < 1 / 2 then f
  else if 1 / 2 < r then f + 1
  else if f % 2 = 0 then f else f + 1

/-- Python `round(q, 1)`: round to one decimal place. -/
def pyRound1 (q : ℚ) : ℚ := (roundHalfEven (q * 10) : ℚ) / 10

/-- `round(percentage_change, 1)` on a possibly non-finite value:
`round` leaves `inf` and NaN unchanged. -/
def round1pc : PCVal → PCVal
  | PCVal.nan => PCVal.nan
  | PCVal.inf => PCVal.inf
  | PCVal.fin q => PCVal.fin (pyRound1 q)

/-- The result of `get_percentage_change` (main.py lines 145-150),
without the label strings. -/
structure PCStats where
  weekBefore : Option ℚ
  lastWeek : Option ℚ
  percentageChange : PCVal
deriving DecidableEq, Repr

/-- main.py lines 114-150. Selects the rows of one area, takes the
maximum date of the WHOLE frame, derives the upper bound from the mode
(line 125), filters the area rows into the two inclusive windows
(lines 130-133), aggregates each window (lines 135-136) and applies the
zero-denominator policy (lines 138-143). When the frame is empty the max
date is NaN, the NaT-valued bounds make every date comparison False and
both windows are empty. -/
def get_percentage_change (area_name : String) (mode : EmailTypes)
    (agg : AggFun) (metric_df : List Row) : PCStats :=
  let area_data := metric_df.filter (fun r => r.areaName = area_name)
  match maxDate (metric_df.map Row.date) with
  | none =>
      let a := applyAgg agg []
      { weekBefore := a, lastWeek := a, percentageChange := pcFromAggs a a }
  | some m =>
      let d := dates_from_upper_bound (upperBoundFor mode m)
      let lastWeekRows := area_data.filter
        (fun r => decide (d.six_days_before ≤ r.date) && decide (r.date ≤ d.upper_bound))
      let weekBeforeRows := area_data.filter
        (fun r => decide (d.thirteen_days_before ≤ r.date) && decide (r.date ≤ d.seven_days_before))
      let aggLast := applyAgg agg (lastWeekRows.map Row.value)
      let aggBefore := applyAgg agg (weekBeforeRows.map Row.value)
      { weekBefore := aggBefore, lastWeek := aggLast,
        percentageChange := pcFromAggs aggBefore aggLast }

/-- One row of the dataframe built by `percentage_changes` (main.py
lines 165-205): area name, the two raw aggregates, the ROUNDED
percentage change (line 169), and the ROUNDED per-100000 value
(line 180; `none` both for a missing value and for the hospital metrics,
whose frame simply has no such column). -/
structure ResultRow where
  areaName : String
  weekBefore : Option ℚ
  lastWeek : Option ℚ
  percentageChange : PCVal
  per100000 : Option ℚ
deriving DecidableEq, Repr

/-- The body of the loop of `percentage_changes` (main.py lines 162-205)
for one area name. -/
def buildRow (kind : MetricKind) (mode : EmailTypes) (agg : AggFun)
    (populations : List (String × ℚ)) (metric_df : List Row) (area_name : String) :
    Except RunError ResultRow :=
  let stats := get_percentage_change area_name mode agg metric_df
  match kind with
  | MetricKind.cases => do
      let rate ← get_cases_per_100000 stats.lastWeek populations metric_df area_name
      pure { areaName := area_name
             weekBefore := stats.weekBefore
             lastWeek := stats.lastWeek
             percentageChange := round1pc stats.percentageChange
             per100000 := rate.map pyRound1 }
  | MetricKind.hospital =>
      pure { areaName := area_name
             weekBefore := stats.weekBefore
             lastWeek := stats.lastWeek
             percentageChange := round1pc stats.percentageChange
             per100000 := none }

/-- main.py lines 153-208: iterates over the unique area names and
returns the built rows. `ret_df` is assigned only inside the loop
(line 207), so when there are no area names the `return ret_df` on
line 208 raises `UnboundLocalError`. -/
def percentage_changes (kind : MetricKind) (mode : EmailTypes) (agg : AggFun)
    (populations : List (String × ℚ)) (metric_df : List Row) :
    Except RunError (List ResultRow) :=
  match pdUnique (metric_df.map Row.areaName) with
  | [] => Except.error RunError.unboundLocalRetDf
  | names => names.mapM (buildRow kind mode agg populations metric_df)

/-- pandas `Series.gt(t)` on a possibly non-finite percentage change:
NaN compares False, `inf` compares True. -/
def pcGtB : PCVal → ℚ → Bool
  | PCVal.nan, _ => false
  | PCVal.inf, _ => true
  | PCVal.fin q, t => decide (t < q)

/-- pandas `Series.gt(t)` on a possibly missing value: NaN/None compares
False. -/
def optGtB : Option ℚ → ℚ → Bool
  | none, _ => false
  | some q, t => decide (t < q)

/-- The filter of `get_areas_above_thresholds` (main.py lines 227-238)
with the thresholds of line 220: `percentageChange > 50.0` and, for the
cases metric, `lastSevenDaysPer100000 > 50.0`; for the hospital metrics,
the third column (the last-week aggregate) `> 30`. -/
def rowPasses (kind : MetricKind) (r : ResultRow) : Bool :=
  pcGtB r.percentageChange 50 &&
    (match kind with
     | MetricKind.cases => optGtB r.per100000 50
     | MetricKind.hospital => optGtB r.lastWeek 30)

/-- Descending key comparison on percentage changes, as
`sort_values("percentageChange", ascending=False)` orders them: `inf`
first, finite values by `≥`, NaN last. -/
def pcKeyGe : PCVal → PCVal → Bool
  | PCVal.nan, PCVal.nan => true
  | PCVal.nan, _ => false
  | _, PCVal.nan => true
  | PCVal.inf, _ => true
  | _, PCVal.inf => false
  | PCVal.fin x, PCVal.fin y => decide (y ≤ x)

/-- Stable insertion of a row into a descending-sorted list. -/
def insertDesc (a : ResultRow) : List ResultRow → List ResultRow
  | [] => [a]
  | b :: l =>
      if pcKeyGe a.percentageChange b.percentageChange then a :: b :: l
      else b :: insertDesc a l

/-- `df.sort_values("percentageChange", ascending=False)` (main.py
lines 232 and 238), modelled as a descending insertion sort. The real
call uses the default `kind='quicksort'` — the numpy indirect introsort,
which guarantees only the key order: its tie order is
implementation-defined and is NOT the original row order in general
(see `npyArgsortQuicksort` below for the faithful algorithm and the C3
counterexample for a tie-scrambling run). This simplified model is
therefore used only for tie-order-INDEPENDENT consequences: which rows
appear, that the result is sorted descending by the key, and that an
empty selection stays empty. No stability property is claimed for the
program. -/
def sortDesc : List ResultRow → List ResultRow
  | [] => []
  | a :: l => insertDesc a (sortDesc l)

/-- The filter-and-sort stage of `get_areas_above_thresholds` (main.py
lines 227-238) applied to the rows of the `percentage_changes` frame. -/
def thresholdFilter (kind : MetricKind) (rows : List ResultRow) : List ResultRow :=
  sortDesc (rows.filter (rowPasses kind))

/-- main.py lines 219-242 without the HTTP fetch: compute the
percentage-change frame and keep the rows above the thresholds, sorted. -/
def get_areas_above_thresholds (kind : MetricKind) (mode : EmailTypes)
    (agg : AggFun) (populations : List (String × ℚ)) (metric_df : List Row) :
    Except RunError (List ResultRow) :=
  (percentage_changes kind mode agg populations metric_df).map (thresholdFilter kind)

/-- main.py lines 306-310: `all_data = [get_areas_above_thresholds("ltla",
"newCasesBySpecimenDate", 'sum'), get_areas_above_thresholds("nhsTrust",
"hospitalCases", 'mean')]` — both evaluations run in one list expression
with no exception handling, so an exception in the first aborts the whole
call before the second runs. -/
def check_last_two_weeks_of_metrics (mode : EmailTypes)
    (populations : List (String × ℚ)) (cases_df hospital_df : List Row) :
    Except RunError (List (List ResultRow)) := do
  let d1 ← get_areas_above_thresholds MetricKind.cases mode AggFun.sum populations cases_df
  let d2 ← get_areas_above_thresholds MetricKind.hospital mode AggFun.mean populations hospital_df
  pure [d1, d2]

/-- The observable outcome of `compare_available_metrics` (main.py
lines 272-302): the computed set of new metric names, whether the alert
email was sent, and the definitions persisted to the store. -/
structure CompareOutcome where
  added : Finset String
  alerted : Bool
  saved : Finset String
deriving DecidableEq

/-- main.py lines 272-302: `previous` starts empty and keeps that value
when the baseline read raises; `new_metric_names = set(current.keys()) -
set(previous.keys())`; an email is sent exactly when that difference is
non-empty; `save_metric_definitions(current)` runs unconditionally at the
end. -/
def compare_available_metrics (current : Finset String)
    (previousFetch : Except Unit (Finset String)) : CompareOutcome :=
  let previous := match previousFetch with
    | Except.ok p => p
    | Except.error _ => (∅ : Finset String)
  let new_metric_names := current \ previous
  { added := new_metric_names
    alerted := decide (0 < new_metric_names.card)
    saved := current }

/-- main.py lines 30-31: `EMAIL_TYPE = EmailTypes(EMAIL_TYPE_STR) if
EMAIL_TYPE_STR in EmailTypes.__members__ else EmailTypes.VERIFIED`, with
`EMAIL_TYPE_STR` the (possibly unset) environment variable. The second
component is the list of diagnostics printed: the line prints nothing. -/
def parseEmailType : Option String → EmailTypes × List String
  | some s =>
      (if s = "VERIFIED" then EmailTypes.VERIFIED
       else if s = "UNVERIFIED" then EmailTypes.UNVERIFIED
       else EmailTypes.VERIFIED, [])
  | none => (EmailTypes.VERIFIED, [])

/-!
Faithful model of the tie order of `df.sort_values("percentageChange",
ascending=False)` (main.py lines 232 and 238). pandas resolves this call
through `nargsort(key, kind="quicksort", ascending=False,
na_position="last")`, which reverses the non-NaN values and their
indices, calls `ndarray.argsort(kind='quicksort')` — the numpy indirect
introsort `aquicksort` — and reverses the resulting indexer, appending
the NaN positions at the end. numpy's quicksort is NOT a stable sort:
its median-of-3 partition exchanges entries with equal keys, so once a
segment exceeds the 15-element insertion-sort cutoff, tied rows come out
in a different order than they went in. The functions below transcribe
`aquicksort` (numpy npysort/quicksort.c.src) with explicit fuel for the
C while-loops; the fuel supplied by `npyArgsortQuicksort` exceeds the
number of iterations the algorithm can perform. -/

/-- float64 `<` on the percentage-change column: comparisons with NaN
are false, `inf` is below nothing, finite values compare as rationals. -/
def pcLtB : PCVal → PCVal → Bool
  | PCVal.nan, _ => false
  | _, PCVal.nan => false
  | PCVal.inf, _ => false
  | PCVal.fin _, PCVal.inf => true
  | PCVal.fin x, PCVal.fin y => decide (x < y)

/-- `isna` on a float64 key: true only for NaN. -/
def isNaB : PCVal → Bool
  | PCVal.nan => true
  | _ => false

/-- numpy `SMALL_QUICKSORT`: segments of at most this many elements
beyond the first are finished with insertion sort. -/
def SMALL_QUICKSORT : Nat := 15

/-- numpy `npy_get_msb`: position of the most significant bit. -/
def npy_get_msb (n : Nat) : Nat := Nat.log2 n

/-- `tosort[i]` with the out-of-range default 0 (never hit at the
inputs evaluated here). -/
def agetN (t : Array Nat) (i : Nat) : Nat := t.getD i 0

/-- `v[tosort[i]]`: the key at position `i` of the index array. -/
def akey (keys : Array PCVal) (t : Array Nat) (i : Nat) : PCVal :=
  keys.getD (agetN t i) PCVal.nan

/-- `INTP_SWAP(tosort[i], tosort[j])`. -/
def aswapN (t : Array Nat) (i j : Nat) : Array Nat :=
  let vi := agetN t i
  let vj := agetN t j
  (t.setD i vj).setD j vi

/-- `do ++pi; while (LT(v[*pi], vp));` of the aquicksort partition:
returns the final `pi`. -/
def advancePi (keys : Array PCVal) (t : Array Nat) (vp : PCVal) (pi : Nat) : Nat → Nat
  | 0 => pi + 1
  | f + 1 =>
      if pcLtB (akey keys t (pi + 1)) vp then advancePi keys t vp (pi + 1) f
      else pi + 1

/-- `do --pj; while (LT(vp, v[*pj]));` of the aquicksort partition:
returns the final `pj`. -/
def retreatPj (keys : Array PCVal) (t : Array Nat) (vp : PCVal) (pj : Nat) : Nat → Nat
  | 0 => pj - 1
  | f + 1 =>
      if pcLtB vp (akey keys t (pj - 1)) then retreatPj keys t vp (pj - 1) f
      else pj - 1

/-- The `for (;;) { do ++pi ...; do --pj ...; if (pi >= pj) break;
INTP_SWAP(*pi, *pj); }` partition loop of aquicksort; returns the
updated index array and the final `pi`. -/
def partitionLoop (keys : Array PCVal) (t : Array Nat) (vp : PCVal)
    (pi pj : Nat) : Nat → Array Nat × Nat
  | 0 => (t, pi)
  | f + 1 =>
      let pi2 := advancePi keys t vp pi t.size
      let pj2 := retreatPj keys t vp pj t.size
      if pi2 ≥ pj2 then (t, pi2)
      else partitionLoop keys (aswapN t pi2 pj2) vp pi2 pj2 f

/-- The inner `while (pj > pl && LT(vp, v[*pk])) { *pj-- = *pk--; }
*pj = vi;` of the aquicksort insertion sort. -/
def ainsInner (keys : Array PCVal) (t : Array Nat) (pl pj vi : Nat) :
    Nat → Array Nat
  | 0 => t.setD pj vi
  | f + 1 =>
      if pj > pl ∧ pcLtB (keys.getD vi PCVal.nan) (akey keys t (pj - 1)) = true then
        ainsInner keys (t.setD pj (agetN t (pj - 1))) pl (pj - 1) vi f
      else t.setD pj vi

/-- The `for (pi = pl + 1; pi <= pr; ++pi)` insertion sort of
aquicksort over the inclusive segment `[pl, pr]`. -/
def ainsLoop (keys : Array PCVal) (t : Array Nat) (pl pi pr : Nat) :
    Nat → Array Nat
  | 0 => t
  | f + 1 =>
      if pi ≤ pr then
        let vi := agetN t pi
        ainsLoop keys (ainsInner keys t pl pi vi pi) pl (pi + 1) pr f
      else t

/-- The outer loop of numpy `aquicksort`: introsort over the index
array with an explicit segment stack. Each step either partitions the
current segment (median-of-3 pivot, Hoare-style pointer scan, recursing
into the smaller half and stacking the larger, decrementing the depth
budget), or — when the segment is small — insertion-sorts it and pops
the next segment. numpy switches to `aheapsort` when the depth budget
is exhausted; that fallback is NOT modelled (the budget
`2 * npy_get_msb n` is never exhausted at the inputs evaluated in this
file): the model then leaves the segment as it stands and pops. -/
def aquicksortLoop (keys : Array PCVal) :
    Nat → Array Nat → Nat → Nat → ℤ → List (Nat × Nat) → Array Nat
  | 0, t, _, _, _, _ => t
  | f + 1, t, pl, pr, depth, stack =>
      if pr - pl > SMALL_QUICKSORT then
        if depth < 0 then
          match stack with
          | [] => t
          | (a, b) :: rest => aquicksortLoop keys f t a b (depth - 1) rest
        else
          let pm := pl + (pr - pl) / 2
          let t1 := if pcLtB (akey keys t pm) (akey keys t pl) then aswapN t pm pl else t
          let t2 := if pcLtB (akey keys t1 pr) (akey keys t1 pm) then aswapN t1 pr pm else t1
          let t3 := if pcLtB (akey keys t2 pm) (akey keys t2 pl) then aswapN t2 pm pl else t2
          let vp := akey keys t3 pm
          let t4 := aswapN t3 pm (pr - 1)
          let s := partitionLoop keys t4 vp pl (pr - 1) t4.size
          let t6 := aswapN s.1 s.2 (pr - 1)
          if s.2 - pl < pr - s.2 then
            aquicksortLoop keys f t6 pl (s.2 - 1) (depth - 1) ((s.2 + 1, pr) :: stack)
          else
            aquicksortLoop keys f t6 (s.2 + 1) pr (depth - 1) ((pl, s.2 - 1) :: stack)
      else
        let t7 := ainsLoop keys t pl (pl + 1) pr (pr + 1 - pl)
        match stack with
        | [] => t7
        | (a, b) :: rest => aquicksortLoop keys f t7 a b depth rest

/-- numpy `ndarray.argsort(kind='quicksort')` (`aquicksort`): the
permutation of indices that sorts `keys` ascending, with
implementation-defined tie order. -/
def npyArgsortQuicksort (keys : Array PCVal) : Array Nat :=
  let n := keys.size
  aquicksortLoop keys (2 * n + 2) (Array.range n) 0 (n - 1)
    (2 * (npy_get_msb n : ℤ)) []

/-- pandas `nargsort(key, kind="quicksort", ascending=False,
na_position="last")`: reverse the non-NaN values and their positions,
argsort ascending with numpy quicksort, map through the reversed
positions, reverse the indexer and append the NaN positions. -/
def pandasNargsortDesc (keys : List PCVal) : List Nat :=
    let n := keys.length
    let non_nan_idx := (List.range n).filter (fun i => !(isNaB (keys.getD i PCVal.nan)))
    let nan_idx := (List.range n).filter (fun i => isNaB (keys.getD i PCVal.nan))
    let rev_idx := non_nan_idx.reverse
    let rev_vals := ((rev_idx.map (fun i => keys.getD i PCVal.nan)).toArray : Array PCVal)
    let order := npyArgsortQuicksort rev_vals
    (order.toList.map (fun j => rev_idx.getD j 0)).reverse ++ nan_idx

/-- `df.sort_values("percentageChange", ascending=False)` with the
default `kind='quicksort'`: reorder the rows by the pandas indexer. -/
def pandasSortValuesDesc (rows : List ResultRow) : List ResultRow :=
  (pandasNargsortDesc (rows.map ResultRow.percentageChange)).map
    (fun i => rows.getD i
      { areaName := "", weekBefore := none, lastWeek := none,
        percentageChange := PCVal.nan, per100000 := none })

/-- The filter-and-sort of main.py lines 227-238 with the sort modelled
by the faithful numpy indirect introsort: used to settle what the
program does to the order of tied rows. -/
def thresholdFilterQuicksort (kind : MetricKind) (rows : List ResultRow) :
    List ResultRow :=
  pandasSortValuesDesc (rows.filter (rowPasses kind))

theorem pcKeyGe_total (x y : PCVal) : pcKeyGe x y = true ∨ pcKeyGe y x = true := by
  cases x <;> cases y <;> simp [pcKeyGe] <;> exact le_total _ _

theorem pcKeyGe_trans {x y z : PCVal} (h1 : pcKeyGe x y = true)
    (h2 : pcKeyGe y z = true) : pcKeyGe x z = true := by
  cases x <;> cases y <;> cases z <;> simp [pcKeyGe] at h1 h2 ⊢ <;>
    exact le_trans h2 h1

theorem mem_insertDesc (a x : ResultRow) (l : List ResultRow) :
    x ∈ insertDesc a l ↔ x = a ∨ x ∈ l := by
  induction l with
  | nil => simp [insertDesc]
  | cons b l ih =>
    by_cases h : pcKeyGe a.percentageChange b.percentageChange = true
    · simp [insertDesc, h]
    · simp only [insertDesc, if_neg h, List.mem_cons, ih]
      tauto

theorem mem_sortDesc (x : ResultRow) (l : List ResultRow) :
    x ∈ sortDesc l ↔ x ∈ l := by
  induction l with
  | nil => simp [sortDesc]
  | cons a l ih => simp [sortDesc, mem_insertDesc, ih]

theorem pairwise_insertDesc (a : ResultRow) (l : List ResultRow)
    (h : List.Pairwise (fun x y => pcKeyGe x.percentageChange y.percentageChange = true) l) :
    List.Pairwise (fun x y => pcKeyGe x.percentageChange y.percentageChange = true)
      (insertDesc a l) := by
  induction l with
  | nil => simp [insertDesc]
  | cons b l ih =>
    rcases List.pairwise_cons.mp h with ⟨hb, hl⟩
    by_cases hab : pcKeyGe a.percentageChange b.percentageChange = true
    · rw [insertDesc, if_pos hab]
      refine List.pairwise_cons.mpr ⟨?_, h⟩
      intro x hx
      rcases List.mem_cons.mp hx with rfl | hx
      · exact hab
      · exact pcKeyGe_trans hab (hb x hx)
    · rw [insertDesc, if_neg hab]
      refine List.pairwise_cons.mpr ⟨?_, ih hl⟩
      intro x hx
      rcases (mem_insertDesc a x l).mp hx with rfl | hx
      · rcases pcKeyGe_total x.percentageChange b.percentageChange with h1 | h1
        · exact absurd h1 hab
        · exact h1
      · exact hb x hx

theorem pairwise_sortDesc (l : List ResultRow) :
    List.Pairwise (fun x y => pcKeyGe x.percentageChange y.percentageChange = true)
      (sortDesc l) := by
  induction l with
  | nil => simp [sortDesc]
  | cons a l ih => exact pairwise_insertDesc a (sortDesc l) ih

/-- C3 (amended). The Threshold Filter returns a collection containing
exactly the input rows that pass the percentage-change threshold and the
metric-type-dependent second criterion, sorted by percentage change
descending, and returns the empty list rather than an error when nothing
qualifies. The order of rows with EQUAL percentage change is deliberately
not part of the statement: the program sorts with the default
`kind='quicksort'`, whose tie order is not the original iteration order
(see `C3_counterexample`). -/
theorem C3_threshold_filter (kind : MetricKind) (rows : List ResultRow) :
    (∀ r, r ∈ thresholdFilter kind rows ↔ (r ∈ rows ∧ rowPasses kind r = true)) ∧
    List.Pairwise (fun a b => pcKeyGe a.percentageChange b.percentageChange = true)
      (thresholdFilter kind rows) ∧
    ((∀ r ∈ rows, rowPasses kind r = false) → thresholdFilter kind rows = []) := by
  refine ⟨?_, ?_, ?_⟩
  · intro r
    rw [thresholdFilter, mem_sortDesc, List.mem_filter]
  · exact pairwise_sortDesc _
  · intro hall
    have : rows.filter (rowPasses kind) = [] := by
      rw [List.filter_eq_nil_iff]
      intro r hr
      simp [hall r hr]
    rw [thresholdFilter, this]
    rfl

/-- Concrete instance of `C3_threshold_filter`: a passing hospital row is
kept, and a list whose only row fails both thresholds filters to `[]`. -/
theorem C3_threshold_filter_witness :
    ({ areaName := "A", weekBefore := some 40, lastWeek := some 100,
       percentageChange := PCVal.fin 150, per100000 := none } : ResultRow) ∈
      thresholdFilter MetricKind.hospital
        [{ areaName := "A", weekBefore := some 40, lastWeek := some 100,
           percentageChange := PCVal.fin 150, per100000 := none }] ∧
    thresholdFilter MetricKind.hospital
      [{ areaName := "B", weekBefore := some 40, lastWeek := some 100,
         percentageChange := PCVal.fin 10, per100000 := none }] = [] := by
  constructor
  · exact ((C3_threshold_filter MetricKind.hospital
      [{ areaName := "A", weekBefore := some 40, lastWeek := some 100,
         percentageChange := PCVal.fin 150, per100000 := none }]).1 _).mpr
      ⟨by simp, by decide⟩
  · exact (C3_threshold_filter MetricKind.hospital
      [{ areaName := "B", weekBefore := some 40, lastWeek := some 100,
         percentageChange := PCVal.fin 10, per100000 := none }]).2.2 (by decide)

set_option maxRecDepth 4000 in
/-- C3 counterexample. Seventeen areas all tie at +100% and all pass the
hospital thresholds, so the rows are mutual ties; the claim mandates
ties keep the original iteration order, i.e. the output be the input
list itself. But `sort_values` with the default numpy quicksort
partitions the 17-element segment (one above the 15-element
insertion-sort cutoff), its median-of-3 pivot placement and pointer
scan exchange equal-keyed entries, and the program emits the tied rows
in the order 0,9,15,14,13,12,11,10,8,1,7,6,5,4,3,2,16 — not the
original order. The sort is not stable. -/
theorem C3_counterexample :
    (let mk : Nat → ResultRow := fun i =>
      { areaName := toString i, weekBefore := some 40, lastWeek := some 100,
        percentageChange := PCVal.fin 100, per100000 := none }
     let tieRows := (List.range 17).map mk
     tieRows.filter (rowPasses MetricKind.hospital) = tieRows ∧
     tieRows.map ResultRow.percentageChange = List.replicate 17 (PCVal.fin 100) ∧
     thresholdFilterQuicksort MetricKind.hospital tieRows =
       [0, 9, 15, 14, 13, 12, 11, 10, 8, 1, 7, 6, 5, 4, 3, 2, 16].map mk ∧
     thresholdFilterQuicksort MetricKind.hospital tieRows ≠ tieRows) := by
  decide

/-- C4 counterexample. With prior aggregate 2500 and current aggregate
3751 the unrounded percentage change is 50.04, strictly above the 50.0
threshold, and the second (hospital) criterion also holds — yet the area
is dropped, because the value stored and compared is the ROUNDED 50.0,
which does not exceed 50.0. So threshold comparisons do NOT use the
unrounded value, contrary to the claim. -/
theorem C4_counterexample :
    pcFromAggs (some 2500) (some 3751) = PCVal.fin (1251 / 25) ∧
    ((50 : ℚ) < 1251 / 25) ∧
    round1pc (PCVal.fin (1251 / 25)) = PCVal.fin 50 ∧
    pcGtB (PCVal.fin 50) 50 = false ∧
    optGtB (some 3751) 30 = true ∧
    get_areas_above_thresholds MetricKind.hospital EmailTypes.UNVERIFIED AggFun.sum []
      [{ areaName := "X", areaCode := "c", date := 94, value := 3751 },
       { areaName := "X", areaCode := "c", date := 87, value := 2500 }] =
      Except.ok [] := by
  refine ⟨by decide, by decide, by decide, by decide, by decide, ?_⟩
  rfl

/-- C4 amended: percentage change and per-100000 rate are rounded to one
decimal place when STORED in the result row, and the threshold
comparisons are performed on these stored, already-rounded values. -/
theorem C4_rounded_comparisons (mode : EmailTypes) (agg : AggFun)
    (populations : List (String × ℚ)) (metric_df : List Row)
    (area_name : String) (rate : Option ℚ)
    (hg : get_cases_per_100000 (get_percentage_change area_name mode agg metric_df).lastWeek
        populations metric_df area_name = Except.ok rate) :
    buildRow MetricKind.cases mode agg populations metric_df area_name =
      Except.ok { areaName := area_name
                  weekBefore := (get_percentage_change area_name mode agg metric_df).weekBefore
                  lastWeek := (get_percentage_change area_name mode agg metric_df).lastWeek
                  percentageChange :=
                    round1pc (get_percentage_change area_name mode agg metric_df).percentageChange
                  per100000 := rate.map pyRound1 } ∧
    buildRow MetricKind.hospital mode agg populations metric_df area_name =
      Except.ok { areaName := area_name
                  weekBefore := (get_percentage_change area_name mode agg metric_df).weekBefore
                  lastWeek := (get_percentage_change area_name mode agg metric_df).lastWeek
                  percentageChange :=
                    round1pc (get_percentage_change area_name mode agg metric_df).percentageChange
                  per100000 := none } ∧
    (∀ (kind : MetricKind) (rows : List ResultRow) (r : ResultRow),
      r ∈ thresholdFilter kind rows ↔ (r ∈ rows ∧ rowPasses kind r = true)) := by
  refine ⟨?_, rfl, ?_⟩
  · have hb : buildRow MetricKind.cases mode agg populations metric_df area_name =
        Except.bind
          (get_cases_per_100000 (get_percentage_change area_name mode agg metric_df).lastWeek
            populations metric_df area_name)
          (fun rate => Except.ok
            { areaName := area_name
              weekBefore := (get_percentage_change area_name mode agg metric_df).weekBefore
              lastWeek := (get_percentage_change area_name mode agg metric_df).lastWeek
              percentageChange :=
                round1pc (get_percentage_change area_name mode agg metric_df).percentageChange
              per100000 := rate.map pyRound1 }) := rfl
    rw [hb, hg]
    rfl
  · intro kind rows r
    rw [thresholdFilter, mem_sortDesc, List.mem_filter]

/-- Concrete instance of `C4_rounded_comparisons`: a one-row cases frame
with population 100 stores the rounded values in its result row. -/
theorem C4_rounded_comparisons_witness :
    buildRow MetricKind.cases EmailTypes.UNVERIFIED AggFun.sum [("c", 100)]
      [{ areaName := "A", areaCode := "c", date := 0, value := 10 }] "A" =
      Except.ok { areaName := "A", weekBefore := some 0, lastWeek := some 10,
                  percentageChange := PCVal.inf, per100000 := some 10000 } := by
  have h := (C4_rounded_comparisons EmailTypes.UNVERIFIED AggFun.sum [("c", 100)]
      [{ areaName := "A", areaCode := "c", date := 0, value := 10 }] "A" (some 10000) rfl).1
  rw [h]
  rfl

/-- C5 counterexample. The claim states that an empty window makes the
aggregate undefined for BOTH operators; but pandas sum of an empty
selection is 0, a defined value. -/
theorem C5_counterexample :
    applyAgg AggFun.sum [] = some 0 ∧ applyAgg AggFun.sum [] ≠ none := by
  refine ⟨rfl, ?_⟩
  intro h
  exact Option.noConfusion h

/-- C5 amended: the MEAN of an empty window is undefined (NaN) and makes
the percentage change NaN, and a NaN percentage change never passes the
threshold filter, so the area is excluded without an error (the hospital
branch always returns a row); but the SUM of an empty window is 0, and
the zero-baseline rules of the change evaluator apply to it. -/
theorem C5_empty_window (kind : MetricKind) (mode : EmailTypes)
    (agg : AggFun) (populations : List (String × ℚ)) (metric_df : List Row)
    (area_name : String) (r : ResultRow) (c : Option ℚ) :
    applyAgg AggFun.mean [] = none ∧
    applyAgg AggFun.sum [] = some 0 ∧
    pcFromAggs none c = PCVal.nan ∧
    (r.percentageChange = PCVal.nan → rowPasses kind r = false) ∧
    (∃ row, buildRow MetricKind.hospital mode agg populations metric_df area_name =
      Except.ok row) := by
  refine ⟨rfl, rfl, rfl, ?_, ?_⟩
  · intro hr
    simp [rowPasses, hr, pcGtB]
  · exact ⟨_, rfl⟩

/-- Concrete instance of `C5_empty_window`: a row whose percentage change
is NaN fails the cases filter. -/
theorem C5_empty_window_witness :
    rowPasses MetricKind.cases
      { areaName := "N", weekBefore := none, lastWeek := none,
        percentageChange := PCVal.nan, per100000 := none } = false :=
  (C5_empty_window MetricKind.cases EmailTypes.VERIFIED AggFun.mean [] [] "N"
    { areaName := "N", weekBefore := none, lastWeek := none,
      percentageChange := PCVal.nan, per100000 := none } none).2.2.2.1 rfl

theorem except_bind_ok {ε α β : Type} (a : α) (f : α → Except ε β) :
    Except.bind (Except.ok a) f = f a := rfl

/-- C6. The detector computes `added` as the set difference of current
and previous identifiers (an unreadable previous set counting as empty),
alerts exactly when `added` is non-empty, and persists `current` as the
new baseline unconditionally; on the spec scenario
current = A,B,C and previous = A it yields added = B,C and persists
A,B,C. -/
theorem C6_definition_diff (current : Finset String)
    (previousFetch : Except Unit (Finset String)) :
    (compare_available_metrics current previousFetch).added =
      current \ (match previousFetch with
                 | Except.ok p => p
                 | Except.error _ => (∅ : Finset String)) ∧
    ((compare_available_metrics current previousFetch).alerted = true ↔
      (compare_available_metrics current previousFetch).added ≠ ∅) ∧
    (compare_available_metrics current previousFetch).saved = current ∧
    (compare_available_metrics {"A", "B", "C"} (Except.ok {"A"})).added = {"B", "C"} ∧
    (compare_available_metrics {"A", "B", "C"} (Except.ok {"A"})).alerted = true ∧
    (compare_available_metrics {"A", "B", "C"} (Except.ok {"A"})).saved =
      {"A", "B", "C"} := by
  refine ⟨?_, ?_, rfl, by decide, by decide, by decide⟩
  · cases previousFetch <;> rfl
  · show decide (0 < (compare_available_metrics current previousFetch).added.card) = true ↔ _
    rw [decide_eq_true_iff, Finset.card_pos, Finset.nonempty_iff_ne_empty]

/-- Concrete instance of `C6_definition_diff`: the scenario baseline
persists all three identifiers. -/
theorem C6_definition_diff_witness :
    (compare_available_metrics {"A", "B", "C"} (Except.ok {"A"})).alerted = true :=
  ((C6_definition_diff {"A", "B", "C"} (Except.ok {"A"})).2.1).mpr (by decide)

/-- C7. When the resolved area code has no population entry, the lookup
emits a diagnostic and `get_cases_per_100000` returns `None` instead of
raising, and a row with a null per-100000 rate can never pass the
case-count threshold criterion, whatever its percentage change. -/
theorem C7_missing_population (populations : List (String × ℚ))
    (metric_df : List Row) (area_name code : String) (cs : Option ℚ)
    (h1 : area_code_for_area metric_df area_name = Except.ok code)
    (h2 : lookupPop populations code = none) :
    (population_for_area populations code).1 = none ∧
    (population_for_area populations code).2 ≠ [] ∧
    get_cases_per_100000 cs populations metric_df area_name = Except.ok none ∧
    (∀ r : ResultRow, r.per100000 = none → rowPasses MetricKind.cases r = false) := by
  have hpop : population_for_area populations code =
      (none, ["Error getting population for area, area code not found."]) := by
    rw [population_for_area, h2]
  refine ⟨by rw [hpop], by rw [hpop]; simp, ?_, ?_⟩
  · have hb : get_cases_per_100000 cs populations metric_df area_name =
        Except.bind (area_code_for_area metric_df area_name) (fun area_code =>
          match (population_for_area populations area_code).1, cs with
          | none, _ => Except.ok none
          | some _, none => Except.ok none
          | some p, some c => Except.ok (some ((c / p) * 100000))) := rfl
    rw [hb, h1, except_bind_ok]
    rw [hpop]
  · intro r hr
    simp [rowPasses, hr, optGtB]

/-- Concrete instance of `C7_missing_population`: a one-row frame whose
area code is absent from an empty population table yields `ok none`. -/
theorem C7_missing_population_witness :
    get_cases_per_100000 (some 5) []
      [{ areaName := "A", areaCode := "c1", date := 0, value := 1 }] "A" =
      Except.ok none :=
  (C7_missing_population []
    [{ areaName := "A", areaCode := "c1", date := 0, value := 1 }] "A" "c1"
    (some 5) rfl rfl).2.2.1

/-- C8 counterexample. On an empty series the pipeline does fail, but
with the `UnboundLocalError` on `ret_df` in `percentage_changes`; no
`EmptySeriesError` exists in the code and none is signalled. -/
theorem C8_counterexample :
    percentage_changes MetricKind.cases EmailTypes.VERIFIED AggFun.sum [] [] =
      Except.error RunError.unboundLocalRetDf ∧
    percentage_changes MetricKind.cases EmailTypes.VERIFIED AggFun.sum [] [] ≠
      Except.error RunError.emptySeries := by
  refine ⟨rfl, ?_⟩
  intro h
  have h2 : RunError.unboundLocalRetDf = RunError.emptySeries := Except.error.inj h
  exact RunError.noConfusion h2

/-- C8 amended: for every empty input series the run fails — the
area-name loop never executes, `ret_df` is never assigned, and
`percentage_changes` (and with it the whole threshold evaluation) raises
an unbound-local error; the window-resolution code itself signals
nothing. -/
theorem C8_empty_series (kind : MetricKind) (mode : EmailTypes)
    (agg : AggFun) (populations : List (String × ℚ)) :
    percentage_changes kind mode agg populations [] =
      Except.error RunError.unboundLocalRetDf ∧
    get_areas_above_thresholds kind mode agg populations [] =
      Except.error RunError.unboundLocalRetDf := by
  exact ⟨rfl, rfl⟩

/-- C9 counterexample. An ambiguous area-code mapping in the cases
series makes the whole `check_last_two_weeks_of_metrics` call return the
error: the hospital metric — which on its own evaluates fine and would
even alert — is never evaluated, contrary to the claim that other
configured metrics are unaffected. -/
theorem C9_counterexample :
    get_areas_above_thresholds MetricKind.cases EmailTypes.UNVERIFIED AggFun.sum []
      [{ areaName := "X", areaCode := "c1", date := 0, value := 1 },
       { areaName := "X", areaCode := "c2", date := 0, value := 1 }] =
      Except.error RunError.ambiguousAreaCode ∧
    get_areas_above_thresholds MetricKind.hospital EmailTypes.UNVERIFIED AggFun.mean []
      [{ areaName := "H", areaCode := "h1", date := 20, value := 100 },
       { areaName := "H", areaCode := "h1", date := 10, value := 40 }] =
      Except.ok [{ areaName := "H", weekBefore := some 40, lastWeek := some 100,
                   percentageChange := PCVal.fin 150, per100000 := none }] ∧
    check_last_two_weeks_of_metrics EmailTypes.UNVERIFIED []
      [{ areaName := "X", areaCode := "c1", date := 0, value := 1 },
       { areaName := "X", areaCode := "c2", date := 0, value := 1 }]
      [{ areaName := "H", areaCode := "h1", date := 20, value := 100 },
       { areaName := "H", areaCode := "h1", date := 10, value := 40 }] =
      Except.error RunError.ambiguousAreaCode := by
  exact ⟨rfl, rfl, rfl⟩

/-- C9 amended: any error in the cases-metric evaluation makes the whole
run return that error; the hospital metric is not evaluated. -/
theorem C9_error_aborts_run (mode : EmailTypes)
    (populations : List (String × ℚ)) (cases_df hospital_df : List Row)
    (e : RunError)
    (h : get_areas_above_thresholds MetricKind.cases mode AggFun.sum populations cases_df =
      Except.error e) :
    check_last_two_weeks_of_metrics mode populations cases_df hospital_df =
      Except.error e := by
  have hb : check_last_two_weeks_of_metrics mode populations cases_df hospital_df =
      Except.bind
        (get_areas_above_thresholds MetricKind.cases mode AggFun.sum populations cases_df)
        (fun d1 => Except.bind
          (get_areas_above_thresholds MetricKind.hospital mode AggFun.mean populations hospital_df)
          (fun d2 => Except.ok [d1, d2])) := rfl
  rw [hb, h]
  rfl

/-- Concrete instance of `C9_error_aborts_run`. -/
theorem C9_error_aborts_run_witness :
    check_last_two_weeks_of_metrics EmailTypes.UNVERIFIED []
      [{ areaName := "Y", areaCode := "d1", date := 0, value := 1 },
       { areaName := "Y", areaCode := "d2", date := 0, value := 1 }] [] =
      Except.error RunError.ambiguousAreaCode :=
  C9_error_aborts_run EmailTypes.UNVERIFIED []
    [{ areaName := "Y", areaCode := "d1", date := 0, value := 1 },
     { areaName := "Y", areaCode := "d2", date := 0, value := 1 }] []
    RunError.ambiguousAreaCode rfl

/-- C10. Every value of the EMAIL_TYPE environment variable other than
exactly VERIFIED or UNVERIFIED — including the unset case — silently
selects VERIFIED: no error and no diagnostic. -/
theorem C10_email_type_fallback (s : Option String)
    (h1 : s ≠ some "VERIFIED") (h2 : s ≠ some "UNVERIFIED") :
    parseEmailType s = (EmailTypes.VERIFIED, []) := by
  cases s with
  | none => rfl
  | some v =>
    have hv1 : v ≠ "VERIFIED" := fun h => h1 (by rw [h])
    have hv2 : v ≠ "UNVERIFIED" := fun h => h2 (by rw [h])
    simp [parseEmailType, hv1, hv2]

/-- Concrete instance of `C10_email_type_fallback`. -/
theorem C10_email_type_fallback_witness :
    parseEmailType (some "banana") = (EmailTypes.VERIFIED, []) :=
  C10_email_type_fallback (some "banana") (by decide) (by decide)
